import Mathlib

/-!
Verification of the input-validation and request-descriptor layer of the
era5cli command line front end (src/era5cli/cli.py).

The Python code is shallowly embedded: strings are Lean `String`s (we work
on their `data` character lists), Python `int(...)` parsing, `str.zfill`,
`str.lower`, `str.split('/')` and truthiness are modelled explicitly, and
every helper that may print-and-`sys.exit()` or raise an exception returns
a `Res` value recording the outcome.  The argparse-based command surface of
`main` is modelled by `runMain` below, faithful to CPython argparse
semantics for the declarations actually made in the source.
-/

/-- Python exceptions relevant to cli.py. -/
inductive PyExc where
  | valueError
  | typeError
  | nameError
  | attributeError
deriving DecidableEq, Repr

/-- Outcome of running a Python function: a normal return value, a
print-then-`sys.exit()` termination (printed lines and the process exit
status — bare `sys.exit()` raises `SystemExit(None)`, which terminates the
process with status 0), or an uncaught exception propagating to the
caller. -/
inductive Res (α : Type) where
  | ok : α → Res α
  | exit : List String → Nat → Res α
  | exc : PyExc → Res α
deriving DecidableEq, Repr

/-- Characters treated as whitespace by `str.strip()` (ASCII fragment;
none of the analysed inputs use the wider Unicode set). -/
def pyIsSpace (c : Char) : Bool :=
  c = ' ' ∨ c = '\t' ∨ c = '\n' ∨ c = '\x0d'

/-- Strip leading and trailing whitespace from a character list, as
`int(str)` does before parsing. -/
def pyStrip (l : List Char) : List Char :=
  ((l.dropWhile pyIsSpace).reverse.dropWhile pyIsSpace).reverse

/-- Nonempty and all decimal digits. -/
def allDigits (l : List Char) : Bool :=
  !l.isEmpty && l.all Char.isDigit

/-- Value of a digit string, most significant first. -/
def natOfDigits (l : List Char) : Nat :=
  l.foldl (fun a c => 10 * a + (c.toNat - 48)) 0

/-- Model of CPython `int(s)` on a `str`: strip whitespace, allow one
optional sign, then require a nonempty run of decimal digits;
`none` models the `ValueError` raised otherwise.  (Underscore digit
grouping and non-ASCII digits are not modelled; no analysed input uses
them.) -/
def pyIntParseChars (l0 : List Char) : Option Int :=
  if (pyStrip l0).head? = some '+' then
    if allDigits (pyStrip l0).tail then some (natOfDigits (pyStrip l0).tail) else none
  else if (pyStrip l0).head? = some '-' then
    if allDigits (pyStrip l0).tail then some (-(natOfDigits (pyStrip l0).tail : Int)) else none
  else if allDigits (pyStrip l0) then some (natOfDigits (pyStrip l0)) else none

/-- Model of `int(s)` for a Lean `String`. -/
def pyIntParse (s : String) : Option Int :=
  pyIntParseChars s.data

/-- Model of CPython `str.zfill(width)`: left-pad with zeros up to
`width`, keeping a leading sign character in front; a string already at
least `width` long is returned unchanged. -/
def pyZfill (s : String) (width : Nat) : String :=
  if width ≤ s.data.length then s
  else if s.data.head? = some '+' ∨ s.data.head? = some '-' then
    ⟨s.data.take 1 ++ (List.replicate (width - s.data.length) '0' ++ s.data.tail)⟩
  else ⟨List.replicate (width - s.data.length) '0' ++ s.data⟩

/-- Model of `str.lower()` (ASCII). -/
def pyLower (s : String) : String :=
  ⟨s.data.map Char.toLower⟩

/-- Model of `str.split('/')`: `""` gives `[""]`, separators at the ends
give empty fields. -/
def splitOnSlash : List Char → List (List Char)
  | [] => [[]]
  | c :: rest =>
    if c = '/' then [] :: splitOnSlash rest
    else
      match splitOnSlash rest with
      | [] => [[c]]
      | g :: gs => (c :: g) :: gs

/-- Model of `list(range(start, stop))`: the ascending integers from
`start` up to but excluding `stop` (empty when `stop ≤ start`). -/
def pyRange (start stop : Int) : List Int :=
  (List.range (stop - start).toNat).map (fun i => start + Int.ofNat i)

/-- Embeds `zpadlist` (cli.py lines 12–23).  For string inputs `int(intstr)`
raises `ValueError` on non-numeric text, which the function's
`except TypeError:` handler does not catch, so the exception propagates;
the handler itself (whose body is additionally mangled in the source and
would raise `NameError`) is unreachable for `str` arguments.  An
out-of-range value prints `Invalid {type} argument: {intstr}` and calls
bare `sys.exit()` (process status 0).  On success it returns
`str(intstr.zfill(2))` — note: `zfill` of the original token, not of a
canonical rendering of its value. -/
def zpadlist (intstr : String) (type : String) (minval maxval : Int) : Res String :=
  match pyIntParse intstr with
  | none => .exc .valueError
  | some n =>
    if minval ≤ n ∧ n ≤ maxval then .ok (pyZfill intstr 2)
    else .exit ["Invalid " ++ type ++ " argument: " ++ intstr] 0

/-- Embeds `zpad_days` (cli.py lines 26–28). -/
def zpad_days (intstr : String) : Res String :=
  zpadlist intstr "days" 1 31

/-- Embeds `zpad_months` (cli.py lines 31–33). -/
def zpad_months (intstr : String) : Res String :=
  zpadlist intstr "months" 1 12

/-- Embeds `format_hours` (cli.py lines 36–47): same validation shape as
`zpadlist` with bound 0–23, returning `"{}:00".format(str(intstr).zfill(2))`
on success. -/
def format_hours (intstr : String) : Res String :=
  match pyIntParse intstr with
  | none => .exc .valueError
  | some n =>
    if 0 ≤ n ∧ n ≤ 23 then .ok (pyZfill intstr 2 ++ ":00")
    else .exit ["Invalid hours argument: " ++ intstr] 0

/-- Embeds `format_split` (cli.py lines 50–62).  The input is an optional
string (`None` or a `str`); `if splitstr:` is Python truthiness, so both
`None` and the empty string take the `else` branch and return `None`. -/
def format_split (splitstr : Option String) : Res (Option String) :=
  match splitstr with
  | none => .ok none
  | some s =>
    if s = "" then .ok none
    else if pyLower s = "variable" ∨ pyLower s = "year" then .ok (some (pyLower s))
    else .exit ["Invalid split argument: " ++ s] 0

/-- Embeds `seq_to_list` (cli.py lines 73–76): split on `'/'`, unpack into
exactly two parts (`ValueError` otherwise), parse both as ints
(`ValueError` on failure) and return `list(range(first, last + 1))`. -/
def seq_to_list (sequence : String) : Res (List Int) :=
  match splitOnSlash sequence.data with
  | [first, last] =>
    match pyIntParseChars first, pyIntParseChars last with
    | some f, some l => .ok (pyRange f (l + 1))
    | _, _ => .exc .valueError
  | _ => .exc .valueError

/-- Embeds `str_seq` (cli.py lines 65–70): try `int(intseq)` first and
return a singleton on success; on `ValueError` fall back to
`seq_to_list` (whose own exceptions propagate, being raised inside the
`except` block). -/
def str_seq (intseq : String) : Res (List Int) :=
  match pyIntParse intseq with
  | some n => .ok [n]
  | none => seq_to_list intseq

/-- Values stored on the argparse `Namespace` produced by `parse_args`. -/
inductive Val where
  | str : String → Val
  | ints : List Int → Val
  | bool : Bool → Val
deriving DecidableEq, Repr

/-- Errors argparse reports via `parser.error` (printing a usage line and
an `error: ...` message to stderr and exiting with status 2), plus
`converterExit`, recording a `SystemExit` escaping from a type-converter
function (argparse catches only `ArgumentTypeError`, `TypeError` and
`ValueError`, so a converter's print-and-`sys.exit()` terminates the
process directly with the converter's own output and status). -/
inductive ParseError where
  | invalidCommand (tok : String)
  | missingCommand
  | invalidValue (optname : String) (typename : String) (tok : String)
  | invalidChoice (optname : String) (tok : String)
  | expectedOneArg (optname : String)
  | missingRequired (names : List String)
  | unrecognized (toks : List String)
  | converterExit (printed : List String) (code : Nat)
deriving DecidableEq, Repr

/-- Body of the argparse error message (modelled up to exact quoting and
the usage prefix; each names the offending token and/or argument). -/
def msgBody : ParseError → String
  | .invalidCommand tok => "argument command: invalid choice: " ++ tok
  | .missingCommand => "the following arguments are required: command"
  | .invalidValue optname typename tok =>
      "argument " ++ optname ++ ": invalid " ++ typename ++ " value: " ++ tok
  | .invalidChoice optname tok => "argument " ++ optname ++ ": invalid choice: " ++ tok
  | .expectedOneArg optname => "argument " ++ optname ++ ": expected one argument"
  | .missingRequired names =>
      "the following arguments are required: " ++ String.intercalate ", " names
  | .unrecognized toks => "unrecognized arguments: " ++ String.intercalate " " toks
  | .converterExit printed _ => String.intercalate " " printed

/-- Message printed for an argparse error. -/
def msgOf (e : ParseError) : String :=
  "error: " ++ msgBody e

/-- Choices declared for `-p` / `--product` (cli.py lines 119–124): four plain
strings — compared by argparse against the value AFTER the `type=str_seq`
conversion, i.e. against a list of ints, which can never match. -/
def productChoices : List Val :=
  [.str "ensemble_mean", .str "ensemble_members", .str "ensemble_spread", .str "reanalysis"]

/-- Modelled from the spec: `era5cli.inputref.refdict`, the Info Service's
reference vocabulary used as `choices` for the `info` command's `type`
argument (cli.py lines 200–206), lives in inputref.py which is not part of
src/.  The spec (§3 Info Query, §8) says the vocabulary identifies the
variables and pressure-levels catalogs and that "pressure_levels" is a
valid member. -/
def refdict : List String :=
  ["variables", "pressure_levels"]

/-- Model of Python `bool(s)` for a `str`, the `type=` converter of
`-e` / `--ensemble` and `-s` / `--synaptic` (cli.py lines 131–144): truthiness —
false exactly on the empty string, never raising. -/
def pyTruthy (s : String) : Bool :=
  s ≠ ""

/-- True when a token looks like an option (starts with a dash). -/
def optionLike (s : String) : Bool :=
  match s.data with
  | [] => false
  | c :: _ => c = '-'

/-- Conversion-and-choices check argparse performs on the value given to
`-p` / `--product`: apply `type=str_seq` (a `ValueError` becomes an
invalid-value usage error, a `SystemExit` escapes), then require the
converted value to be a member of `choices` — which, the choices being
plain strings and the converted value a list of ints, can never hold. -/
def hourlyProductArg (v : String) : Except ParseError (List Int) :=
  match str_seq v with
  | .ok l =>
    if Val.ints l ∈ productChoices then .ok l
    else .error (.invalidChoice "-p/--product" v)
  | .exit printed code => .error (.converterExit printed code)
  | .exc _ => .error (.invalidValue "-p/--product" "str_seq" v)

/-- Parse loop of the `fetchhourly` subparser.  Per argparse semantics a
subparser copies its `parents` actions at creation time (cli.py lines
88–91); `common` had no arguments yet — they are added only at lines
104–199 — so the subparser's sole non-help action is `-p` / `--product`
(`type=str_seq`, required, `choices=productChoices`, lines 117–128).
Tokens matching no action accumulate as extras ("unrecognized arguments").
Not modelled (none of the analysed invocations use them): `--opt=value`
syntax, option abbreviation, treating an option-like token after `-p` as
a missing argument, and the auto-added help action. -/
def hourlyLoop : List String → Option (List Int) → List String →
    Except ParseError (Option (List Int) × List String)
  | [], prod, extras => .ok (prod, extras)
  | [tok], prod, extras =>
    if tok = "-p" ∨ tok = "--product" then .error (.expectedOneArg "-p/--product")
    else .ok (prod, extras ++ [tok])
  | tok :: v :: rest2, prod, extras =>
    if tok = "-p" ∨ tok = "--product" then
      match hourlyProductArg v with
      | .ok l => hourlyLoop rest2 (some l) extras
      | .error e => .error e
    else hourlyLoop (v :: rest2) prod (extras ++ [tok])

/-- Full parse of `fetchhourly` arguments: run the loop, then (as argparse
does, in this order) report a missing required option, then unrecognized
leftovers, and otherwise produce the namespace. -/
def parseHourly (toks : List String) : Except ParseError (List (String × Val)) :=
  match hourlyLoop toks none [] with
  | .error e => .error e
  | .ok (none, _) => .error (.missingRequired ["-p/--product"])
  | .ok (some l, extras) =>
    if extras.isEmpty then
      .ok [("command", .str "fetchhourly"), ("product", .ints l)]
    else .error (.unrecognized extras)

/-- Parse loop of the `fetchmonthly` subparser: its only actions are
`-e` / `--ensemble` and `-s` / `--synaptic` (both required, `type=bool`, cli.py
lines 131–144); like `fetchhourly` it inherited nothing from `common`. -/
def monthlyLoop : List String → Option Bool → Option Bool → List String →
    Except ParseError (Option Bool × Option Bool × List String)
  | [], e, s, extras => .ok (e, s, extras)
  | [tok], e, s, extras =>
    if tok = "-e" ∨ tok = "--ensemble" then .error (.expectedOneArg "-e/--ensemble")
    else if tok = "-s" ∨ tok = "--synaptic" then .error (.expectedOneArg "-s/--synaptic")
    else .ok (e, s, extras ++ [tok])
  | tok :: v :: rest2, e, s, extras =>
    if tok = "-e" ∨ tok = "--ensemble" then monthlyLoop rest2 (some (pyTruthy v)) s extras
    else if tok = "-s" ∨ tok = "--synaptic" then monthlyLoop rest2 e (some (pyTruthy v)) extras
    else monthlyLoop (v :: rest2) e s (extras ++ [tok])

/-- Full parse of `fetchmonthly` arguments. -/
def parseMonthly (toks : List String) : Except ParseError (List (String × Val)) :=
  match monthlyLoop toks none none [] with
  | .error e => .error e
  | .ok (eo, so, extras) =>
    match eo, so with
    | some b, some c =>
      if extras.isEmpty then
        .ok [("command", .str "fetchmonthly"), ("ensemble", .bool b), ("synaptic", .bool c)]
      else .error (.unrecognized extras)
    | _, _ =>
      .error (.missingRequired
        ((if eo.isNone then ["-e/--ensemble"] else []) ++
         (if so.isNone then ["-s/--synaptic"] else [])))

/-- Parse loop of the `info` subparser: one positional `type` with
`choices=refdict` (cli.py lines 200–206); argparse checks choices when the
positional is stored, erroring immediately on a non-member. -/
def infoLoop : List String → Option String → List String →
    Except ParseError (Option String × List String)
  | [], t, extras => .ok (t, extras)
  | tok :: rest, t, extras =>
    if optionLike tok then infoLoop rest t (extras ++ [tok])
    else
      match t with
      | none =>
        if tok ∈ refdict then infoLoop rest (some tok) extras
        else .error (.invalidChoice "type" tok)
      | some _ => infoLoop rest t (extras ++ [tok])

/-- Full parse of `info` arguments. -/
def parseInfo (toks : List String) : Except ParseError (List (String × Val)) :=
  match infoLoop toks none [] with
  | .error e => .error e
  | .ok (none, _) => .error (.missingRequired ["type"])
  | .ok (some t, extras) =>
    if extras.isEmpty then
      .ok [("command", .str "info"), ("type", .str t)]
    else .error (.unrecognized extras)

/-- Model of `getattr` on the parsed namespace: `none` models the
`AttributeError` raised for an attribute the namespace lacks. -/
def getattrOpt (ns : List (String × Val)) (name : String) : Option Val :=
  (ns.find? (fun p => p.1 == name)).map (fun p => p.2)

/-- Arguments of the single `Fetch(...)` constructor call in `main`
(cli.py lines 228–230); `levels` is read from the namespace but not
passed to `Fetch`. -/
structure FetchCall where
  years : Val
  months : Val
  days : Val
  hours : Val
  varNames : Val
  outputformat : Val
  outputpfx : Val
  split : Val
  threads : Val
deriving DecidableEq, Repr

/-- Process-level outcome of one invocation of `main`. -/
inductive MainOutcome where
  | normal
  | usageError (msg : String)
  | uncaught (e : PyExc)
  | exited (printed : List String) (code : Nat)
deriving DecidableEq, Repr

/-- Observable result of one invocation: the outcome plus every call
dispatched to the Fetch Engine and to the Info Service. -/
structure MainResult where
  outcome : MainOutcome
  fetchCalls : List FetchCall
  infoCalls : List Val
deriving DecidableEq, Repr

/-- Process exit status of an invocation: 0 for a normal return, 2 for an
argparse usage error, 1 for an uncaught exception (traceback), and the
recorded status for an explicit `sys.exit`. -/
def MainResult.exitCode (r : MainResult) : Nat :=
  match r.outcome with
  | .normal => 0
  | .usageError _ => 2
  | .uncaught _ => 1
  | .exited _ code => code

/-- Result of a parse-time abort: argparse errors print a message and exit
with status 2; a `SystemExit` escaping a converter carries its own printed
lines and status.  Nothing is dispatched in either case. -/
def errResult (e : ParseError) : MainResult :=
  match e with
  | .converterExit printed code =>
      { outcome := .exited printed code, fetchCalls := [], infoCalls := [] }
  | _ => { outcome := .usageError (msgOf e), fetchCalls := [], infoCalls := [] }

/-- Embeds the dispatch at the end of `main` (cli.py lines 209–232): the
`try:` block reads `args.type` — present exactly when the `info`
subcommand ran — and dispatches one call to the Info Service
(`Info(infotype).list()`); on `AttributeError` the handler reads the ten
fetch fields from the namespace and dispatches one call to the Fetch
Engine.  An `AttributeError` raised inside the handler itself (reading
e.g. `args.variables` on a namespace lacking it) is uncaught and kills
the process with a traceback (status 1). -/
def dispatch (ns : List (String × Val)) : MainResult :=
  match getattrOpt ns "type" with
  | some v => { outcome := .normal, fetchCalls := [], infoCalls := [v] }
  | none =>
    match getattrOpt ns "variables", getattrOpt ns "months", getattrOpt ns "days",
        getattrOpt ns "hours", getattrOpt ns "split", getattrOpt ns "format",
        getattrOpt ns "threads", getattrOpt ns "levels", getattrOpt ns "years",
        getattrOpt ns "outputprefix" with
    | some vars, some months, some days, some hours, some split, some fmt,
        some threads, some _levels, some years, some pfx =>
      { outcome := .normal,
        fetchCalls := [{ years := years, months := months, days := days,
                         hours := hours, varNames := vars, outputformat := fmt,
                         outputpfx := pfx, split := split, threads := threads }],
        infoCalls := [] }
    | _, _, _, _, _, _, _, _, _, _ =>
      { outcome := .uncaught .attributeError, fetchCalls := [], infoCalls := [] }

/-- Embeds `main` (cli.py lines 79–236) over CPython argparse semantics
for the declarations actually made: the top parser's required `command`
subparser action selects among fetchhourly / fetchmonthly / info, the
chosen subparser parses the remaining argv, and the namespace is handed
to the dispatch block.  A leading option-like token is folded into the
missing-command error; help actions are not modelled. -/
def runMain (argv : List String) : MainResult :=
  match argv with
  | [] => errResult .missingCommand
  | cmd :: rest =>
    if cmd = "fetchhourly" then
      match parseHourly rest with
      | .error e => errResult e
      | .ok ns => dispatch ns
    else if cmd = "fetchmonthly" then
      match parseMonthly rest with
      | .error e => errResult e
      | .ok ns => dispatch ns
    else if cmd = "info" then
      match parseInfo rest with
      | .error e => errResult e
      | .ok ns => dispatch ns
    else if optionLike cmd then errResult .missingCommand
    else errResult (.invalidCommand cmd)

/-- Inclusive ascending integer range `[first, first+1, ..., last]`, as the
spec words the Sequence Expander's range result. -/
def inclusiveRange (first last : Int) : List Int :=
  (List.range ((last - first).toNat + 1)).map (fun i => first + Int.ofNat i)

/-- Left-pad with zeros to width 2, the spec's wording of the Zero-Padded
Token format. -/
def leftPad2 (s : String) : String :=
  ⟨List.replicate (2 - s.data.length) '0' ++ s.data⟩

/-- Exact "HH:00" form from the spec's Hour Token: five characters, a
zero-padded two-digit hour whose value is 0–23, minutes literally "00". -/
def isHourToken (r : String) : Bool :=
  match r.data with
  | [a, b, c1, c2, c3] =>
    a.isDigit && b.isDigit && c1 = ':' && c2 = '0' && c3 = '0' &&
      decide (10 * (a.toNat - 48) + (b.toNat - 48) < 24)
  | _ => false

theorem dropWhile_eq_self_of_all (p : Char → Bool) (l : List Char)
    (h : ∀ c ∈ l, p c = false) : l.dropWhile p = l := by
  cases l with
  | nil => rfl
  | cons c rest =>
    rw [List.dropWhile_cons, h c (List.mem_cons_self c rest)]
    simp

theorem pyStrip_no_space (l : List Char)
    (h : ∀ c ∈ l, pyIsSpace c = false) : pyStrip l = l := by
  rw [pyStrip, dropWhile_eq_self_of_all _ _ h,
      dropWhile_eq_self_of_all _ _ (fun c hc => h c (List.mem_reverse.mp hc)),
      List.reverse_reverse]

theorem isDigit_not_space (c : Char) (hd : c.isDigit = true) : pyIsSpace c = false := by
  by_contra hq
  rw [Bool.not_eq_false, pyIsSpace] at hq
  rcases of_decide_eq_true hq with h1 | h1 | h1 | h1 <;> subst h1 <;>
    exact absurd hd (by decide)

theorem pyStrip_all_digits (l : List Char) (h : l.all Char.isDigit = true) :
    pyStrip l = l :=
  pyStrip_no_space l (fun c hc => isDigit_not_space c (List.all_eq_true.mp h c hc))

theorem pyIntParseChars_digits (l : List Char) (h : allDigits l = true) :
    pyIntParseChars l = some ((natOfDigits l : Int)) := by
  have h3 := h
  rw [allDigits] at h3
  have hall : l.all Char.isDigit = true := by
    cases hba : l.all Char.isDigit
    · rw [hba, Bool.and_false] at h3
      cases h3
    · rfl
  rw [pyIntParseChars, pyStrip_all_digits l hall]
  cases l with
  | nil =>
    rw [allDigits] at h
    simp at h
  | cons a rest =>
    have ha : a.isDigit = true := List.all_eq_true.mp hall a (List.mem_cons_self a rest)
    have hap : ¬((a :: rest).head? = some '+') := by
      intro h1
      rw [List.head?_cons, Option.some.injEq] at h1
      subst h1
      exact absurd ha (by decide)
    have ham : ¬((a :: rest).head? = some '-') := by
      intro h1
      rw [List.head?_cons, Option.some.injEq] at h1
      subst h1
      exact absurd ha (by decide)
    rw [if_neg hap, if_neg ham, if_pos h]

theorem pyZfill_length_two (s : String) (h : s.data.length ≤ 2) :
    (pyZfill s 2).length = 2 := by
  have hlen : ∀ l : List Char, (String.mk l).length = l.length := fun l => rfl
  rw [pyZfill]
  split
  · rename_i hge1
    have h2 : s.length = s.data.length := rfl
    omega
  · rename_i hge
    split
    · rename_i hc
      rcases hd : s.data with _ | ⟨c0, r0⟩
      · rw [hd] at hc
        simp at hc
      · rw [hlen]
        have hlen2 : s.data.length = r0.length + 1 := by rw [hd, List.length_cons]
        simp only [List.length_append, List.length_take, List.length_replicate,
          List.tail_cons, List.length_cons]
        omega
    · rw [hlen]
      simp only [List.length_append, List.length_replicate]
      omega

theorem msgOf_ne_empty (e : ParseError) : msgOf e ≠ "" := by
  intro h
  have h2 := congrArg String.length h
  rw [msgOf, String.length_append] at h2
  have h3 : ("error: ").length = 7 := rfl
  have h4 : ("" : String).length = 0 := rfl
  omega

theorem ints_not_in_productChoices (l : List Int) : Val.ints l ∉ productChoices := by
  intro h
  simp [productChoices] at h

theorem errResult_no_calls (e : ParseError) :
    (errResult e).fetchCalls = [] ∧ (errResult e).infoCalls = [] := by
  cases e <;> simp [errResult]

theorem errResult_usage_facts (e : ParseError) (m : String)
    (h : (errResult e).outcome = .usageError m) :
    m ≠ "" ∧ (errResult e).exitCode = 2 ∧
    (errResult e).fetchCalls = [] ∧ (errResult e).infoCalls = [] := by
  cases e
  case converterExit printed code => cases h
  all_goals
    injection h with h
    exact ⟨h ▸ msgOf_ne_empty _, rfl, rfl, rfl⟩

theorem hourlyProductArg_error (v : String) : ∃ e, hourlyProductArg v = .error e := by
  rw [hourlyProductArg]
  rcases hsv : str_seq v with l | ⟨printed, code⟩ | exc2
  · refine ⟨.invalidChoice "-p/--product" v, ?_⟩
    show (if Val.ints l ∈ productChoices then Except.ok l
          else Except.error (ParseError.invalidChoice "-p/--product" v)) =
        Except.error (ParseError.invalidChoice "-p/--product" v)
    rw [if_neg (ints_not_in_productChoices l)]
  · exact ⟨_, rfl⟩
  · exact ⟨_, rfl⟩

theorem hourlyLoop_singleton (tok : String) (prod : Option (List Int))
    (extras : List String) :
    hourlyLoop [tok] prod extras =
      if tok = "-p" ∨ tok = "--product" then .error (.expectedOneArg "-p/--product")
      else .ok (prod, extras ++ [tok]) := by
  rw [hourlyLoop.eq_def]

theorem hourlyLoop_pair (tok v : String) (rest2 : List String)
    (prod : Option (List Int)) (extras : List String) :
    hourlyLoop (tok :: v :: rest2) prod extras =
      if tok = "-p" ∨ tok = "--product" then
        match hourlyProductArg v with
        | .ok l => hourlyLoop rest2 (some l) extras
        | .error e => .error e
      else hourlyLoop (v :: rest2) prod (extras ++ [tok]) := by
  rw [hourlyLoop.eq_def]

theorem hourlyLoop_keeps_none : ∀ (toks extras : List String)
    (p : Option (List Int)) (ex : List String),
    hourlyLoop toks none extras = .ok (p, ex) → p = none
  | [], extras, p, ex => by
    intro h
    cases h
    rfl
  | [tok], extras, p, ex => by
    intro h
    rw [hourlyLoop_singleton] at h
    split at h
    · cases h
    · cases h
      rfl
  | tok :: v :: rest2, extras, p, ex => by
    intro h
    rw [hourlyLoop_pair] at h
    split at h
    · obtain ⟨e, he⟩ := hourlyProductArg_error v
      rw [he] at h
      cases h
    · exact hourlyLoop_keeps_none (v :: rest2) (extras ++ [tok]) p ex h

theorem parseHourly_always_error (toks : List String) :
    ∃ e, parseHourly toks = .error e := by
  rw [parseHourly]
  rcases hh : hourlyLoop toks none [] with e | ⟨p, ex⟩
  · exact ⟨e, rfl⟩
  · have hp := hourlyLoop_keeps_none toks [] p ex hh
    subst hp
    exact ⟨.missingRequired ["-p/--product"], rfl⟩

theorem parseMonthly_ok_shape (toks : List String) (ns : List (String × Val))
    (h : parseMonthly toks = .ok ns) :
    ∃ b c, ns = [("command", .str "fetchmonthly"),
                 ("ensemble", .bool b), ("synaptic", .bool c)] := by
  rw [parseMonthly] at h
  rcases hm : monthlyLoop toks none none [] with e | ⟨eo, so, extras⟩ <;> rw [hm] at h
  · cases h
  · rcases eo with _ | b <;> rcases so with _ | c
    · cases h
    · cases h
    · cases h
    · rcases extras with _ | ⟨x, xs⟩
      · cases h
        exact ⟨b, c, rfl⟩
      · cases h

theorem parseInfo_ok_shape (toks : List String) (ns : List (String × Val))
    (h : parseInfo toks = .ok ns) :
    ∃ t, ns = [("command", .str "info"), ("type", .str t)] := by
  rw [parseInfo] at h
  rcases hi : infoLoop toks none [] with e | ⟨ty, extras⟩ <;> rw [hi] at h
  · cases h
  · rcases ty with _ | t
    · cases h
    · rcases extras with _ | ⟨x, xs⟩
      · cases h
        exact ⟨t, rfl⟩
      · cases h

/-- Every invocation ends in one of three shapes: a parse-time abort, the
uncaught `AttributeError` of the fetch branch, or a single Info call. -/
theorem runMain_shape (argv : List String) :
    (∃ e, runMain argv = errResult e) ∨
    (runMain argv = { outcome := .uncaught .attributeError,
                      fetchCalls := [], infoCalls := [] }) ∨
    (∃ t, runMain argv = { outcome := .normal, fetchCalls := [],
                           infoCalls := [.str t] }) := by
  match argv with
  | [] => exact .inl ⟨.missingCommand, rfl⟩
  | cmd :: rest =>
    rw [runMain]
    by_cases h1 : cmd = "fetchhourly"
    · rw [if_pos h1]
      obtain ⟨e, he⟩ := parseHourly_always_error rest
      rw [he]
      exact .inl ⟨e, rfl⟩
    · rw [if_neg h1]
      by_cases h2 : cmd = "fetchmonthly"
      · rw [if_pos h2]
        rcases hm : parseMonthly rest with e | ns
        · exact .inl ⟨e, rfl⟩
        · obtain ⟨b, c, rfl⟩ := parseMonthly_ok_shape rest ns hm
          exact .inr (.inl rfl)
      · rw [if_neg h2]
        by_cases h3 : cmd = "info"
        · rw [if_pos h3]
          rcases hi : parseInfo rest with e | ns
          · exact .inl ⟨e, rfl⟩
          · obtain ⟨t, rfl⟩ := parseInfo_ok_shape rest ns hi
            exact .inr (.inr ⟨t, rfl⟩)
        · rw [if_neg h3]
          by_cases h4 : optionLike cmd = true
          · rw [if_pos h4]
            exact .inl ⟨.missingCommand, rfl⟩
          · rw [if_neg h4]
            exact .inl ⟨.invalidCommand cmd, rfl⟩

theorem runMain_never_fetches (argv : List String) :
    (runMain argv).fetchCalls = [] := by
  rcases runMain_shape argv with ⟨e, he⟩ | he | ⟨t, he⟩ <;> rw [he]
  exact (errResult_no_calls e).1

theorem pyRange_succ_eq_inclusiveRange (f l : Int) (h : f ≤ l) :
    pyRange f (l + 1) = inclusiveRange f l := by
  rw [pyRange, inclusiveRange]
  have h2 : (l + 1 - f).toNat = (l - f).toNat + 1 := by omega
  rw [h2]

theorem str_seq_single (s : String) (n : Int) (h : pyIntParse s = some n) :
    str_seq s = .ok [n] := by
  rw [str_seq, h]

theorem str_seq_range (s : String) (fs ls : List Char) (f l : Int)
    (hn : pyIntParse s = none) (hsplit : splitOnSlash s.data = [fs, ls])
    (hf : pyIntParseChars fs = some f) (hl : pyIntParseChars ls = some l) :
    str_seq s = .ok (pyRange f (l + 1)) := by
  rw [str_seq, hn]
  show seq_to_list s = _
  rw [seq_to_list, hsplit]
  show (match pyIntParseChars fs, pyIntParseChars ls with
    | some f2, some l2 => Res.ok (pyRange f2 (l2 + 1))
    | _, _ => Res.exc .valueError) = _
  rw [hf, hl]

theorem pyZfill_data_digits (s : String) (hdig : s.data.all Char.isDigit = true) :
    (pyZfill s 2).data = List.replicate (2 - s.data.length) '0' ++ s.data := by
  rw [pyZfill]
  split
  · rename_i hge
    have h0 : 2 - s.data.length = 0 := by omega
    rw [h0]
    rfl
  · split
    · rename_i hsign
      exfalso
      rcases hh : s.data.head? with _ | c
      · rcases hsign with hs | hs <;> rw [hh] at hs <;> cases hs
      · have hcm : c ∈ s.data := by
          cases hdl : s.data with
          | nil =>
            rw [hdl] at hh
            cases hh
          | cons x xs =>
            rw [hdl] at hh
            rw [List.head?_cons] at hh
            injection hh with hh
            rw [← hh]
            exact List.mem_cons_self x xs
        have hcd := List.all_eq_true.mp hdig c hcm
        rcases hsign with hs | hs <;> rw [hh] at hs <;> injection hs with hs <;>
          subst hs <;> exact absurd hcd (by decide)
    · rfl

/-- C1: invoking the hourly-fetch command with variables=["2m_temperature"],
years="2015/2016", product=["reanalysis"] does not build the descriptor the
spec describes: the fetchhourly subparser (which inherited nothing from
`common`, its parents having been applied before common's arguments were
declared) aborts while converting `--product` through `str_seq`, argparse
exits with a usage error, and no call ever reaches the Fetch Engine — on
any invocation whatsoever. -/
theorem hourly_fetch_never_dispatched :
    (runMain ["fetchhourly", "2m_temperature", "--years", "2015/2016",
        "--product", "reanalysis"]).outcome =
      .usageError "error: argument -p/--product: invalid str_seq value: reanalysis" ∧
    (runMain ["fetchhourly", "2m_temperature", "--years", "2015/2016",
        "--product", "reanalysis"]).fetchCalls = [] ∧
    (∀ argv, (runMain argv).fetchCalls = []) :=
  ⟨by decide, by decide, runMain_never_fetches⟩

/-- C2: every invocation on which the command surface reports a validation
or usage error terminates with a nonempty printed message and exit
status 2, dispatching nothing to the Fetch Engine or the Info Service; in
particular the hourly-fetch invocation carrying `--hours 25` ends in such
an error with zero Fetch calls. -/
theorem validation_error_terminates_before_dispatch :
    (∀ argv m, (runMain argv).outcome = .usageError m →
      m ≠ "" ∧ (runMain argv).exitCode = 2 ∧
      (runMain argv).fetchCalls = [] ∧ (runMain argv).infoCalls = []) ∧
    (runMain ["fetchhourly", "2m_temperature", "--years", "2015/2016",
        "--product", "reanalysis", "--hours", "25"]).outcome =
      .usageError "error: argument -p/--product: invalid str_seq value: reanalysis" ∧
    (runMain ["fetchhourly", "2m_temperature", "--years", "2015/2016",
        "--product", "reanalysis", "--hours", "25"]).fetchCalls = [] := by
  refine ⟨?_, by decide, by decide⟩
  intro argv m h
  rcases runMain_shape argv with ⟨e, he⟩ | he | ⟨t, he⟩
  · rw [he] at h ⊢
    exact errResult_usage_facts e m h
  · rw [he] at h
    cases h
  · rw [he] at h
    cases h

/-- C2 witness: the hourly-fetch invocation with `--hours 25` concretely
exits with status 2 and no dispatched calls. -/
theorem validation_error_terminates_before_dispatch_witness :
    (runMain ["fetchhourly", "--hours", "25"]).exitCode = 2 ∧
    (runMain ["fetchhourly", "--hours", "25"]).fetchCalls = [] ∧
    (runMain ["fetchhourly", "--hours", "25"]).infoCalls = [] :=
  ⟨(validation_error_terminates_before_dispatch.1 ["fetchhourly", "--hours", "25"]
      (msgOf (.missingRequired ["-p/--product"])) (by decide)).2.1,
   (validation_error_terminates_before_dispatch.1 ["fetchhourly", "--hours", "25"]
      (msgOf (.missingRequired ["-p/--product"])) (by decide)).2.2.1,
   (validation_error_terminates_before_dispatch.1 ["fetchhourly", "--hours", "25"]
      (msgOf (.missingRequired ["-p/--product"])) (by decide)).2.2.2⟩

/-- C3: the Sequence Expander returns the singleton for a token that
parses as a single integer, and the inclusive ascending list for a
"first/last" token whose two parts parse as integers with first ≤ last;
in particular on "5" and "2015/2018". -/
theorem str_seq_expansion :
    (∀ s n, pyIntParse s = some n → str_seq s = .ok [n]) ∧
    (∀ (s : String) (fs ls : List Char) (f l : Int),
      pyIntParse s = none → splitOnSlash s.data = [fs, ls] →
      pyIntParseChars fs = some f → pyIntParseChars ls = some l → f ≤ l →
      str_seq s = .ok (inclusiveRange f l)) ∧
    str_seq "5" = .ok [5] ∧
    str_seq "2015/2018" = .ok [2015, 2016, 2017, 2018] := by
  refine ⟨str_seq_single, ?_, by decide, by decide⟩
  intro s fs ls f l hn hsplit hf hl hle
  rw [str_seq_range s fs ls f l hn hsplit hf hl,
      pyRange_succ_eq_inclusiveRange f l hle]

/-- C3 witness: the range conjunct applied to the concrete token "3/6". -/
theorem str_seq_expansion_witness :
    str_seq "3/6" = .ok (inclusiveRange 3 6) :=
  str_seq_expansion.2.1 "3/6" ['3'] ['6'] 3 6 (by decide) (by decide)
    (by decide) (by decide) (by decide)

/-- C4: evaluation of the Bounded Field Normalizer at the failing input:
a non-numeric token raises an uncaught ValueError (the source's
`except TypeError:` handler cannot catch it, so nothing is printed by the
function itself), while an out-of-range token prints the message naming
token and field and exits; the two failure modes are not identical. -/
theorem zpadlist_failure_modes_differ :
    zpadlist "abc" "days" 1 31 = .exc .valueError ∧
    zpadlist "40" "days" 1 31 = .exit ["Invalid days argument: 40"] 0 ∧
    format_hours "abc" = .exc .valueError ∧
    format_hours "25" = .exit ["Invalid hours argument: 25"] 0 ∧
    zpadlist "abc" "days" 1 31 ≠ zpadlist "40" "days" 1 31 := by decide

/-- C7: the split validator returns None for an absent token, the
lower-cased token for a case-insensitive member of {variable, year}, and
prints a message naming the token and exits for any other nonempty
token. -/
theorem format_split_contract :
    format_split none = .ok none ∧
    format_split (some "Year") = .ok (some "year") ∧
    format_split (some "weekly") = .exit ["Invalid split argument: weekly"] 0 ∧
    (∀ s, s ≠ "" → (pyLower s = "variable" ∨ pyLower s = "year") →
      format_split (some s) = .ok (some (pyLower s))) ∧
    (∀ s, s ≠ "" → ¬(pyLower s = "variable" ∨ pyLower s = "year") →
      format_split (some s) = .exit ["Invalid split argument: " ++ s] 0) := by
  refine ⟨by decide, by decide, by decide, ?_, ?_⟩
  · intro s h1 h2
    rw [format_split, if_neg h1, if_pos h2]
  · intro s h1 h2
    rw [format_split, if_neg h1, if_neg h2]

/-- C7 witness: the member conjunct applied to the concrete token "Year". -/
theorem format_split_contract_witness :
    format_split (some "Year") = .ok (some (pyLower "Year")) :=
  format_split_contract.2.2.2.1 "Year" (by decide) (by decide)

/-- C8: `info pressure_levels` — a valid vocabulary member — dispatches
exactly one call to the Info Service carrying that token and no call to
the Fetch Engine. -/
theorem info_pressure_levels_dispatch :
    runMain ["info", "pressure_levels"] =
      { outcome := .normal, fetchCalls := [],
        infoCalls := [.str "pressure_levels"] } ∧
    "pressure_levels" ∈ refdict := by decide

/-- C9 counterexample: the reversed range token "2018/2015" is accepted by
the Sequence Expander yet yields the empty Integer Sequence, refuting the
unconditional non-emptiness invariant. -/
theorem str_seq_empty_on_reversed_range : str_seq "2018/2015" = .ok [] := by
  decide

/-- C9 amended: the Integer Sequence produced by a successful expansion is
non-empty when the token is a single integer, and for a "first/last" range
token it is non-empty exactly when first ≤ last. -/
theorem str_seq_nonempty_iff :
    (∀ s n, pyIntParse s = some n → ∃ L, str_seq s = .ok L ∧ L ≠ []) ∧
    (∀ (s : String) (fs ls : List Char) (f l : Int),
      pyIntParse s = none → splitOnSlash s.data = [fs, ls] →
      pyIntParseChars fs = some f → pyIntParseChars ls = some l →
      ∃ L, str_seq s = .ok L ∧ (L ≠ [] ↔ f ≤ l)) := by
  constructor
  · intro s n h
    exact ⟨[n], str_seq_single s n h, by simp⟩
  · intro s fs ls f l hn hsplit hf hl
    refine ⟨pyRange f (l + 1), str_seq_range s fs ls f l hn hsplit hf hl, ?_⟩
    rw [pyRange]
    simp only [ne_eq, List.map_eq_nil_iff, List.range_eq_nil]
    omega

/-- C9 witness: the range conjunct applied to the concrete tokens
"3/6" (non-empty) discharging every hypothesis. -/
theorem str_seq_nonempty_iff_witness :
    ∃ L, str_seq "3/6" = .ok L ∧ (L ≠ [] ↔ (3 : Int) ≤ 6) :=
  str_seq_nonempty_iff.2 "3/6" ['3'] ['6'] 3 6 (by decide) (by decide)
    (by decide) (by decide)

/-- C10: a present-but-empty split token is treated like an absent one:
format_split("") returns None with no fatal termination. -/
theorem format_split_empty_token : format_split (some "") = .ok none := by
  decide

/-- C5 counterexample: "005" is accepted by zpad_days (its integer value 5
lies in [1,31]) yet the returned token has width 3, not 2. -/
theorem zpad_days_width_counterexample :
    zpad_days "005" = .ok "005" ∧ ("005" : String).length = 3 := by decide

/-- C5 amended: for every integer n in [1,31], zpad_days on the decimal
rendering of n returns exactly that string left-padded with zeros to width
2; and every accepted token of at most two characters yields a token of
width exactly 2. -/
theorem zpad_days_width :
    (∀ n : Nat, n < 32 → 1 ≤ n →
      zpad_days (Nat.repr n) = .ok (leftPad2 (Nat.repr n)) ∧
      (leftPad2 (Nat.repr n)).length = 2) ∧
    (∀ s r, s.data.length ≤ 2 → zpad_days s = .ok r → r.length = 2) := by
  constructor
  · decide
  · intro s r hlen h
    rw [zpad_days, zpadlist] at h
    split at h
    · cases h
    · split at h
      · injection h with h2
        rw [← h2]
        exact pyZfill_length_two s hlen
      · cases h

/-- C5 witness: the amended theorem applied at n = 7 and at the
two-character token "31". -/
theorem zpad_days_width_witness :
    (zpad_days (Nat.repr 7) = .ok (leftPad2 (Nat.repr 7)) ∧
      (leftPad2 (Nat.repr 7)).length = 2) ∧
    (∀ r, zpad_days "31" = .ok r → r.length = 2) :=
  ⟨zpad_days_width.1 7 (by decide) (by decide),
   fun r => zpad_days_width.2 "31" r (by decide)⟩

/-- C6 counterexample: the token "007" is accepted by the hour normalizer
(its value 7 is in range) yet the returned string "007:00" is not of the
exact "HH:00" form. -/
theorem format_hours_form_counterexample :
    format_hours "007" = .ok "007:00" ∧ isHourToken "007:00" = false := by
  decide

/-- C6 amended: the hour normalizer maps "7" to "07:00" and "23" to
"23:00", is fatal on "24", and for every plain digit token of at most two
characters that it accepts, the returned string has the exact "HH:00"
form with a zero-padded hour in 0–23 and minutes "00". -/
theorem format_hours_contract :
    format_hours "7" = .ok "07:00" ∧
    format_hours "23" = .ok "23:00" ∧
    format_hours "24" = .exit ["Invalid hours argument: 24"] 0 ∧
    (∀ s r, s.data.all Char.isDigit = true → s.data.length ≤ 2 →
      format_hours s = .ok r → isHourToken r = true) := by
  refine ⟨by decide, by decide, by decide, ?_⟩
  intro s r hdig hlen h
  rw [format_hours] at h
  split at h
  · cases h
  · rename_i n heq
    split at h
    · rename_i hrange
      injection h with h2
      have hne : s.data ≠ [] := by
        intro h0
        rw [pyIntParse, h0] at heq
        have h00 : pyIntParseChars [] = none := by decide
        rw [h00] at heq
        cases heq
      have hAD : allDigits s.data = true := by
        rw [allDigits, hdig, Bool.and_true, Bool.not_eq_true']
        cases hie : s.data.isEmpty
        · rfl
        · exact absurd (List.isEmpty_iff.mp hie) hne
      have hpp := pyIntParseChars_digits s.data hAD
      rw [pyIntParse, hpp] at heq
      injection heq with hn
      have hval : natOfDigits s.data ≤ 23 := by
        have h23 := hrange.2
        omega
      have hzd := pyZfill_data_digits s hdig
      have hshape : (∃ a, s.data = [a]) ∨ (∃ a b, s.data = [a, b]) := by
        rcases hd : s.data with _ | ⟨a, _ | ⟨b, _ | ⟨c, t⟩⟩⟩
        · exact absurd hd hne
        · exact .inl ⟨a, rfl⟩
        · exact .inr ⟨a, b, rfl⟩
        · have hlc := congrArg List.length hd
          simp only [List.length_cons] at hlc
          omega
      have h48 : ('0' : Char).toNat = 48 := rfl
      rcases hshape with ⟨a, hd⟩ | ⟨a, b, hd⟩
      · have hadig : a.isDigit = true := by
          have hm : a ∈ s.data := by
            rw [hd]
            exact List.mem_cons_self a []
          exact List.all_eq_true.mp hdig a hm
        rw [hd] at hzd
        simp at hzd
        have hrdata : r.data = ['0', a, ':', '0', '0'] := by
          rw [← h2, String.data_append, hzd]
          rfl
        have hv1 : natOfDigits [a] = a.toNat - 48 := by
          simp [natOfDigits]
        have hva : a.toNat - 48 ≤ 23 := by
          rw [hd, hv1] at hval
          exact hval
        rw [isHourToken.eq_def, hrdata]
        simp only [Bool.and_eq_true, decide_eq_true_eq]
        refine ⟨⟨⟨⟨⟨by decide, hadig⟩, trivial⟩, trivial⟩, trivial⟩, ?_⟩
        rw [h48]
        omega
      · have hadig : a.isDigit = true := by
          have hm : a ∈ s.data := by
            rw [hd]
            exact List.mem_cons_self a [b]
          exact List.all_eq_true.mp hdig a hm
        have hbdig : b.isDigit = true := by
          have hm : b ∈ s.data := by
            rw [hd]
            exact List.mem_cons_of_mem a (List.mem_cons_self b [])
          exact List.all_eq_true.mp hdig b hm
        rw [hd] at hzd
        simp at hzd
        have hrdata : r.data = [a, b, ':', '0', '0'] := by
          rw [← h2, String.data_append, hzd]
          rfl
        have hv2 : natOfDigits [a, b] = 10 * (a.toNat - 48) + (b.toNat - 48) := by
          simp [natOfDigits]
        have hvab : 10 * (a.toNat - 48) + (b.toNat - 48) ≤ 23 := by
          rw [hd, hv2] at hval
          exact hval
        rw [isHourToken.eq_def, hrdata]
        simp only [Bool.and_eq_true, decide_eq_true_eq]
        exact ⟨⟨⟨⟨⟨hadig, hbdig⟩, trivial⟩, trivial⟩, trivial⟩, by omega⟩
    · cases h

/-- C6 witness: the accepted-token conjunct applied to the concrete
token "19". -/
theorem format_hours_contract_witness : isHourToken "19:00" = true :=
  format_hours_contract.2.2.2 "19" "19:00" (by decide) (by decide) (by decide)
